import Mathlib

/-!
Shallow embedding of `src/server/src/8sleep/frankenMonitor.ts` (the
`FrankenMonitor` class): the alarm snooze subsystem (`snoozeAlarm`), the
base-preset branch of the gesture dispatcher (`processGesture`), the
gesture diff engine (`processGesturesForSide`) and one iteration of the
monitor loop (`frankenLoop`).

External collaborators (the CBOR codec, the device command channel, the
actuator library, the memory/settings stores and the timers) are modelled
at their boundary: commands carry their payloads structurally, persisted
writes and actuator calls succeed or fail according to an explicit
environment, and the deferred `setTimeout` completion is recorded as the
scheduled delay.
-/

/-- One of the two bed sides (`'left' | 'right'` in the source). -/
inductive Side2
  | left
  | right
deriving DecidableEq, Repr, Fintype

/-- The per-side record stored in the persisted alarm blob
(`/persistent/alarm.cbr`): alarm payload `pl`, duration `du`, trigger time
`tt` (epoch seconds) and pattern id `pi`. -/
structure SideRecord where
  pl : Nat
  du : Nat
  tt : Int
  pi : Nat
deriving DecidableEq, Repr

/-- A decoded value found under a side key of the alarm blob: either a
structured record, or some other value (the source's
`typeof sideData !== 'object'` case). -/
inductive SideVal
  | record (r : SideRecord)
  | nonRecord
deriving DecidableEq, Repr

/-- The decoded alarm blob, keyed by bed side; a side key may be absent. -/
structure AlarmData where
  left : Option SideVal
  right : Option SideVal
deriving DecidableEq, Repr

/-- Access the record stored under a side key (`alarmData[side]`). -/
def AlarmData.side (ad : AlarmData) : Side2 → Option SideVal
  | .left => ad.left
  | .right => ad.right

/-- The alarm payload built by `snoozeAlarm` (`{ pl, du, tt, pi }`).  The
CBOR/hex codec is an external collaborator, so device commands carry this
payload structurally rather than as encoded bytes. -/
structure AlarmPayload where
  pl : Nat
  du : Nat
  tt : Int
  pi : Nat
deriving DecidableEq, Repr

/-- A device command issued through `executeFunction`: a side-specific
alarm-set command (`ALARM_LEFT` / `ALARM_RIGHT` with the encoded payload) or
the `ALARM_CLEAR` fail-safe. -/
inductive DeviceCommand
  | alarmSet (side : Side2) (payload : AlarmPayload)
  | alarmClear
deriving DecidableEq, Repr

def MIN_SNOOZE_MINUTES : Int := 1

def MAX_SNOOZE_MINUTES : Int := 10

def DEFAULT_SNOOZE_MINUTES : Int := 10

/-- `FrankenMonitor.snoozeAlarm(side, minutes)`.  `alarmBlob = none` models a
failed read of `/persistent/alarm.cbr` or a failed CBOR decode; `now` is
`Math.floor(Date.now() / 1000)` at the call.  Returns the list of device
commands issued (the `catch` branch issues the single `ALARM_CLEAR`). -/
def snoozeAlarm (alarmBlob : Option AlarmData) (now : Nat) (side : Side2)
    (minutes : Int) : List DeviceCommand :=
  match alarmBlob with
  | none => [.alarmClear]
  | some alarmData =>
    match alarmData.side side with
    | some (.record sideData) =>
      let minutes :=
        if minutes < MIN_SNOOZE_MINUTES ∨ minutes > MAX_SNOOZE_MINUTES then 10 else minutes
      let snoozeTime : Int := (now : Int) + minutes * 60
      [.alarmSet side ⟨sideData.pl, sideData.du, snoozeTime, sideData.pi⟩]
    | _ => [.alarmClear]

/-- The two base preset modes cycled by the base gesture
(`keyof typeof BASE_PRESETS`, i.e. `'relax' | 'flat'`). -/
inductive Preset
  | relax
  | flat
deriving DecidableEq, Repr

/-- The source's toggle `currentBasePreset === 'relax' ? 'flat' : 'relax'`. -/
def togglePreset : Preset → Preset
  | .relax => .flat
  | .flat => .relax

/-- Modelled from the spec: `BASE_PRESETS` lives in `basePresets.ts`, which is
not part of the sources; a preset is "head/feet coordinates (and feed rate)".
The table itself is kept abstract (a `Preset → PresetCoords` parameter). -/
structure PresetCoords where
  head : Int
  feet : Int
  feedRate : Int
deriving DecidableEq, Repr

/-- The shared base status record written to `memoryDB.data.baseStatus`. -/
structure BaseStatus where
  head : Int
  feet : Int
  isMoving : Bool
  lastUpdate : Nat
  isConfigured : Bool
deriving DecidableEq, Repr

/-- `memoryDB.data`: the memory store contents (`baseStatus` may be absent). -/
structure MemData where
  baseStatus : Option BaseStatus
deriving DecidableEq, Repr

/-- Failure environment for one base gesture: whether the optimistic
`memoryDB.write()` in the `try` block succeeds, whether the actuator command
(`goToFlat` / `setPosition`) succeeds, and whether the `memoryDB.write()` in
the `catch` block succeeds. -/
structure BaseEnv where
  write1Ok : Bool
  moveOk : Bool
  write2Ok : Bool
deriving DecidableEq, Repr

/-- Environment in which every external call succeeds. -/
def okEnv : BaseEnv := ⟨true, true, true⟩

/-- An actuator command issued to `trimixBase`. -/
inductive BaseCmd
  | goToFlat
  | setPosition (head feet feedRate : Int)
deriving DecidableEq, Repr

def BaseCmd.isGoToFlat : BaseCmd → Bool
  | .goToFlat => true
  | _ => false

def BaseCmd.isSetPosition : BaseCmd → Bool
  | .setPosition _ _ _ => true
  | _ => false

/-- Result of one base gesture dispatch: the preset mode and memory store
afterwards, the actuator commands issued, the delay of the scheduled
`setTimeout` completion callback (if scheduled), whether the `catch` block ran
(`failed`), and whether an error escaped `processGesture` (`escaped`, which
happens only when the recovery write in the `catch` block itself throws). -/
structure BaseResult where
  preset : Preset
  mem : Option MemData
  cmds : List BaseCmd
  timer : Option Int
  failed : Bool
  escaped : Bool
deriving DecidableEq, Repr

/-- The `catch` block of the base branch (source lines 182-196): if a base
status record exists it is marked not moving and re-written (a failing
re-write propagates and skips the revert); then the preset toggle is
reverted. -/
def baseCatch (preset1 : Preset) (mem : Option MemData) (cmds : List BaseCmd)
    (env : BaseEnv) : BaseResult :=
  match mem with
  | some md =>
    match md.baseStatus with
    | some bs =>
      let memAfter : Option MemData := some ⟨some { bs with isMoving := false }⟩
      if env.write2Ok then
        ⟨togglePreset preset1, memAfter, cmds, none, true, false⟩
      else
        ⟨preset1, memAfter, cmds, none, true, true⟩
    | none => ⟨togglePreset preset1, mem, cmds, none, true, false⟩
  | none => ⟨togglePreset preset1, none, cmds, none, true, false⟩

/-- The source's `currentStatus?.head || 0` / `currentStatus?.feet || 0`
defaulting over `memoryDB.data?.baseStatus`. -/
def statusField (mem : Option MemData) (f : BaseStatus → Int) : Int :=
  match mem with
  | some md =>
    match md.baseStatus with
    | some bs => f bs
    | none => 0
  | none => 0

/-- The base branch of `FrankenMonitor.processGesture` (source lines 129-197):
toggle the preset mode, optimistically overwrite `memoryDB.data.baseStatus`
with the target coordinates and `isMoving = true`, issue the movement command,
then estimate the completion time from `memoryDB.data?.baseStatus` (which was
just overwritten) and schedule the completion callback; on failure run the
`catch` block. -/
def processBaseGesture (presets : Preset → PresetCoords) (env : BaseEnv)
    (now : Nat) (preset0 : Preset) (mem0 : Option MemData) : BaseResult :=
  let preset1 := togglePreset preset0
  let targetPreset := presets preset1
  let mem1 : Option MemData :=
    match mem0 with
    | some _ => some ⟨some ⟨targetPreset.head, targetPreset.feet, true, now, true⟩⟩
    | none => none
  if mem0.isSome && !env.write1Ok then
    baseCatch preset1 mem1 [] env
  else
    let cmd : BaseCmd :=
      if preset1 = .flat then .goToFlat
      else .setPosition targetPreset.head targetPreset.feet targetPreset.feedRate
    if !env.moveOk then
      baseCatch preset1 mem1 [cmd] env
    else
      let estimatedTime : Int :=
        max (max (|statusField mem1 (fun bs => bs.head) - targetPreset.head| * 200)
                 (|statusField mem1 (fun bs => bs.feet) - targetPreset.feet| * 200))
            3000
      ⟨preset1, mem1, [cmd], some estimatedTime, false, false⟩

/-- Modelled from the spec: the gesture kinds (`GestureSchema.options`) live in
`settingsSchema.ts`, which is not part of the sources; the spec lists
double-tap, triple-tap and quad-tap per side. -/
inductive Gesture
  | doubleTap
  | tripleTap
  | quadTap
deriving DecidableEq, Repr, Fintype

/-- The order of `GestureSchema.options` iterated by the diff loop. -/
def gestureList : List Gesture := [.doubleTap, .tripleTap, .quadTap]

/-- Modelled from the spec: the `Version` enum lives in
`deviceStatusSchema.ts`, which is not part of the sources; `pod3` is the
generation that lacks gesture support, every other reported version is
abstract. -/
inductive Version
  | pod3
  | otherVersion (tag : Nat)
deriving DecidableEq, Repr

/-- Per-side device status: the reported target temperature, whether the
alarm is vibrating, and the tap-state entry for each gesture kind (`none`
models a missing entry; the entry value itself is abstract). -/
structure SideStatus where
  targetTemperatureF : Int
  isAlarmVibrating : Bool
  taps : Gesture → Option Nat

/-- A device status snapshot (`DeviceStatus`). -/
structure DeviceStatus where
  left : SideStatus
  right : SideStatus
  coverVersion : Version

/-- Access one side of a snapshot (`deviceStatus[side]`). -/
def DeviceStatus.side (ds : DeviceStatus) : Side2 → SideStatus
  | .left => ds.left
  | .right => ds.right

/-- The tap entry compared by the diff loop
(`deviceStatus[side].taps?.[gesture]`). -/
def tapsOf (ds : DeviceStatus) (side : Side2) (g : Gesture) : Option Nat :=
  (ds.side side).taps g

/-- Configured direction of a temperature gesture (`behavior.change`). -/
inductive Direction
  | increment
  | decrement
deriving DecidableEq, Repr

/-- A configured gesture behavior (`settingsDB.data[side].taps[gesture]`). -/
inductive Behavior
  | temperature (change : Direction) (amount : Int)
  | alarm
  | base
deriving DecidableEq, Repr

/-- The settings store: a behavior per (side, gesture). -/
structure Settings where
  taps : Side2 → Gesture → Behavior

/-- A requested device status update
(`updateDeviceStatus({ [side]: { targetTemperatureF } })`): it carries only
the one side's target temperature. -/
structure TempUpdate where
  side : Side2
  targetTemperatureF : Int
deriving DecidableEq, Repr

/-- Observable side effects of gesture dispatch: temperature update requests,
device commands, actuator commands, scheduled completion delays, whether an
error escaped a dispatch, and which (side, gesture) pairs were dispatched. -/
structure Effects where
  tempUpdates : List TempUpdate
  devCmds : List DeviceCommand
  baseCmds : List BaseCmd
  timers : List Int
  escaped : Bool
  dispatched : List (Side2 × Gesture)
deriving DecidableEq, Repr

def emptyEffects : Effects := ⟨[], [], [], [], false, []⟩

/-- Concatenate the effects of two successive dispatches. -/
def Effects.app (a b : Effects) : Effects :=
  ⟨a.tempUpdates ++ b.tempUpdates, a.devCmds ++ b.devCmds,
   a.baseCmds ++ b.baseCmds, a.timers ++ b.timers,
   a.escaped || b.escaped, a.dispatched ++ b.dispatched⟩

/-- Record that (side, gesture) was dispatched by the diff loop. -/
def Effects.addDispatched (e : Effects) (side : Side2) (g : Gesture) : Effects :=
  { e with dispatched := e.dispatched ++ [(side, g)] }

/-- Read-only inputs of one loop iteration: the settings store, the base
failure environment, the decoded alarm blob (or `none` on read/decode
failure), the current epoch time in whole seconds, and the preset table. -/
structure GCfg where
  settings : Settings
  baseEnv : BaseEnv
  alarmBlob : Option AlarmData
  now : Nat
  presets : Preset → PresetCoords

/-- Mutable monitor state read and written by gesture dispatch: the stored
snapshot `this.deviceStatus`, `this.currentBasePreset`, and `memoryDB.data`. -/
structure GState where
  deviceStatus : DeviceStatus
  currentBasePreset : Preset
  mem : Option MemData

/-- `FrankenMonitor.processGesture(side, gesture)` (source lines 111-198).
The temperature branch reads the stored snapshot's target temperature and
requests `current + amount` or `current + (-1 * amount)`; the alarm branch
snoozes for 10 minutes only if the stored snapshot reports a vibrating alarm
on either side; the base branch runs `processBaseGesture`. -/
def processGesture (cfg : GCfg) (s : GState) (side : Side2) (g : Gesture) :
    GState × Effects :=
  match cfg.settings.taps side g with
  | .temperature change amount =>
    let currentTemperatureTarget := (s.deviceStatus.side side).targetTemperatureF
    let newTemperatureTargetF :=
      match change with
      | .increment => currentTemperatureTarget + amount
      | .decrement => currentTemperatureTarget + (-1 * amount)
    (s, { emptyEffects with tempUpdates := [⟨side, newTemperatureTargetF⟩] })
  | .alarm =>
    if s.deviceStatus.left.isAlarmVibrating || s.deviceStatus.right.isAlarmVibrating then
      (s, { emptyEffects with devCmds := snoozeAlarm cfg.alarmBlob cfg.now side 10 })
    else
      (s, emptyEffects)
  | .base =>
    let r := processBaseGesture cfg.presets cfg.baseEnv cfg.now s.currentBasePreset s.mem
    ({ s with currentBasePreset := r.preset, mem := r.mem },
     { emptyEffects with baseCmds := r.cmds, timers := r.timer.toList, escaped := r.escaped })

/-- One step of the diff loop in `processGesturesForSide`: dispatch the
gesture iff the next snapshot's tap entry differs from the stored snapshot's
entry (`nextDeviceStatus[side].taps?.[g] !== this?.deviceStatus?.[side].taps?.[g]`). -/
def gestureStep (cfg : GCfg) (next : DeviceStatus) (side : Side2)
    (acc : GState × Effects) (g : Gesture) : GState × Effects :=
  if tapsOf next side g ≠ tapsOf acc.1.deviceStatus side g then
    ((processGesture cfg acc.1 side g).1,
     ((acc.2.app (processGesture cfg acc.1 side g).2).addDispatched side g))
  else acc

/-- `FrankenMonitor.processGesturesForSide(nextDeviceStatus, side)` (source
lines 200-210): iterate the gesture kinds, dispatching those whose tap entry
changed. -/
def processGesturesForSide (cfg : GCfg) (s : GState) (next : DeviceStatus)
    (side : Side2) : GState × Effects :=
  gestureList.foldl (gestureStep cfg next side) (s, emptyEffects)

/-- `FrankenMonitor.processGestures(nextDeviceStatus)` (source lines 212-220):
left side first, then right side. -/
def processGestures (cfg : GCfg) (s : GState) (next : DeviceStatus) :
    GState × Effects :=
  let r1 := processGesturesForSide cfg s next .left
  let r2 := processGesturesForSide cfg r1.1 next .right
  (r2.1, r1.2.app r2.2)

/-- Result of one monitor loop iteration: the state afterwards, the wait time
used at the top of the iteration, and the dispatch effects. -/
structure IterResult where
  state : GState
  waitTime : Nat
  effects : Effects

/-- One iteration of the inner loop of `FrankenMonitor.frankenLoop` (source
lines 237-251): re-derive gesture support and the wait time from the stored
snapshot, fetch `next`, dispatch gestures against the stored snapshot when
supported, and only then replace the stored snapshot with `next`. -/
def frankenIter (cfg : GCfg) (s : GState) (next : DeviceStatus) : IterResult :=
  let hasGestures : Bool := s.deviceStatus.coverVersion != Version.pod3
  let waitTime : Nat := if hasGestures then 2000 else 60000
  let r := if hasGestures then processGestures cfg s next else (s, emptyEffects)
  ⟨{ r.1 with deviceStatus := next }, waitTime, r.2⟩

/-- Concrete alarm blob with a structured record on the left side. -/
def adC3 : AlarmData := ⟨some (.record ⟨7, 300, 999, 2⟩), none⟩

/-- Concrete alarm blob with a structured record on the right side. -/
def adC4 : AlarmData := ⟨none, some (.record ⟨3, 600, 50, 1⟩)⟩

/-- Concrete preset table: relax raises head and feet, flat is the origin. -/
def presetsC1 : Preset → PresetCoords
  | .relax => ⟨30, 15, 50⟩
  | .flat => ⟨0, 0, 30⟩

/-- Memory store whose base status sits 20 units of head travel and 5 units
of feet travel away from the flat preset. -/
def memC1 : Option MemData := some ⟨some ⟨20, 5, false, 0, true⟩⟩

/-- Environment where both the optimistic status write and the recovery
write fail. -/
def envC5 : BaseEnv := ⟨false, true, false⟩

/-- Environment where the optimistic status write fails but the recovery
write succeeds. -/
def envC5w : BaseEnv := ⟨false, true, true⟩

/-- Memory store with an existing, not-moving base status. -/
def memC5 : Option MemData := some ⟨some ⟨0, 0, false, 0, true⟩⟩

/-- Tap state where every gesture entry is present with value 0. -/
def tapsZero : Gesture → Option Nat := fun _ => some 0

/-- Tap state where only the double-tap entry differs from `tapsZero`. -/
def tapsDouble : Gesture → Option Nat
  | .doubleTap => some 1
  | .tripleTap => some 0
  | .quadTap => some 0

/-- Stored snapshot: both targets 70, left alarm vibrating, all taps zero. -/
def dsPrev : DeviceStatus :=
  ⟨⟨70, true, tapsZero⟩, ⟨70, false, tapsZero⟩, .otherVersion 4⟩

/-- Next snapshot: left target moved to 99, alarm quiet, only the left
double-tap entry changed. -/
def dsNext : DeviceStatus :=
  ⟨⟨99, false, tapsDouble⟩, ⟨99, false, tapsZero⟩, .otherVersion 4⟩

/-- Settings mapping every (side, gesture) to a temperature increment of 2. -/
def settingsInc2 : Settings := ⟨fun _ _ => .temperature .increment 2⟩

/-- Concrete iteration configuration built from `settingsInc2`. -/
def cfgInc2 : GCfg := ⟨settingsInc2, okEnv, none, 0, presetsC1⟩

/-- Concrete monitor state storing `dsPrev`. -/
def sPrev : GState := ⟨dsPrev, .relax, none⟩

/-- The preset toggle is an involution. -/
theorem togglePreset_togglePreset (p : Preset) : togglePreset (togglePreset p) = p := by
  cases p <;> rfl

/-- C2: whenever reading the persisted alarm blob fails, the blob is
undecodable, or the record for the given side is absent or not a structured
record, `snoozeAlarm` issues exactly the alarm-clear command: one alarm-clear
and no side-specific alarm-set command. -/
theorem snooze_failure_issues_only_clear (alarmBlob : Option AlarmData)
    (now : Nat) (side : Side2) (minutes : Int)
    (h : alarmBlob = none ∨ ∃ ad, alarmBlob = some ad ∧
        (ad.side side = none ∨ ad.side side = some .nonRecord)) :
    snoozeAlarm alarmBlob now side minutes = [DeviceCommand.alarmClear] := by
  rcases h with h | ⟨ad, rfl, h | h⟩
  · subst h; rfl
  · simp [snoozeAlarm, h]
  · simp [snoozeAlarm, h]

/-- Witness for C2 at a concrete undecodable blob. -/
theorem snooze_failure_issues_only_clear_witness :
    snoozeAlarm none 0 Side2.left 10 = [DeviceCommand.alarmClear] :=
  snooze_failure_issues_only_clear none 0 Side2.left 10 (Or.inl rfl)

/-- C3: when the blob decodes and holds a structured record for the side,
`snoozeAlarm` issues exactly one alarm-set command for that side whose payload
keeps `pl`, `du` and `pi` from the stored record, sets `tt` to the whole-second
epoch time plus the clamped minutes times 60, and carries no other field. -/
theorem snooze_success_roundtrip (alarmBlob : Option AlarmData)
    (ad : AlarmData) (r : SideRecord) (now : Nat) (side : Side2) (minutes : Int)
    (hb : alarmBlob = some ad) (hs : ad.side side = some (.record r)) :
    snoozeAlarm alarmBlob now side minutes =
      [DeviceCommand.alarmSet side
        ⟨r.pl, r.du,
         (now : Int) +
           (if minutes < MIN_SNOOZE_MINUTES ∨ minutes > MAX_SNOOZE_MINUTES
             then 10 else minutes) * 60,
         r.pi⟩] := by
  subst hb
  simp [snoozeAlarm, hs]

/-- Witness for C3: record (pl 7, du 300, pi 2), now 1000, 5 minutes. -/
theorem snooze_success_roundtrip_witness :
    snoozeAlarm (some adC3) 1000 Side2.left 5 =
      [DeviceCommand.alarmSet Side2.left ⟨7, 300, 1300, 2⟩] := by
  have h := snooze_success_roundtrip (some adC3) adC3 ⟨7, 300, 999, 2⟩ 1000
    Side2.left 5 rfl rfl
  exact h.trans (by decide)

/-- C4: for any minutes outside [1, 10], `snoozeAlarm` behaves exactly as if
the minutes were 10. -/
theorem snooze_clamps_minutes (alarmBlob : Option AlarmData) (now : Nat)
    (side : Side2) (minutes : Int)
    (h : minutes < MIN_SNOOZE_MINUTES ∨ minutes > MAX_SNOOZE_MINUTES) :
    snoozeAlarm alarmBlob now side minutes = snoozeAlarm alarmBlob now side 10 := by
  rcases alarmBlob with _ | ad
  · rfl
  · rcases hs : ad.side side with _ | v
    · simp [snoozeAlarm, hs]
    · rcases v with r | _
      · simp only [snoozeAlarm, hs, if_pos h]
        norm_num [MIN_SNOOZE_MINUTES, MAX_SNOOZE_MINUTES]
      · simp [snoozeAlarm, hs]

/-- Witness for C4 at minutes 99 on a decodable blob. -/
theorem snooze_clamps_minutes_witness :
    snoozeAlarm (some adC4) 500 Side2.right 99 =
      snoozeAlarm (some adC4) 500 Side2.right 10 :=
  snooze_clamps_minutes (some adC4) 500 Side2.right 99 (Or.inr (by decide))

/-- C1 (failing input): with the memory store present, a pre-movement head
position 20 units away from the flat target (so the claim predicts an
estimate of 4000), the scheduled completion delay is nonetheless 3000: the
source reads `memoryDB.data?.baseStatus` after line 144 already overwrote it
with the target coordinates, so both deltas are always 0 and the floor always
wins whenever the store is present. -/
theorem base_estimate_ignores_prior_position :
    (processBaseGesture presetsC1 okEnv 0 Preset.relax memC1).timer = some 3000 := by
  decide

/-- Counterexample to C5 as stated: when the optimistic status write fails
and the recovery write in the catch block also fails, the catch block's
re-write throws before the revert line runs, so `currentBasePreset` stays
toggled (flat) instead of returning to its pre-gesture value (relax). -/
theorem base_failure_rollback_counterexample :
    (processBaseGesture presetsC1 envC5 0 Preset.relax memC5).failed = true ∧
    ¬ (processBaseGesture presetsC1 envC5 0 Preset.relax memC5).preset = Preset.relax := by
  decide

/-- C5 (amended): for every base gesture dispatch in which the status write
or the movement command fails, afterwards every base status record present
has `isMoving` false (the in-memory clear precedes the recovery write);
whenever no error escapes the dispatch, `currentBasePreset` equals its
pre-gesture value; and an error escapes the dispatch only when the recovery
status write in the catch block also fails, in which case
`currentBasePreset` remains toggled. -/
theorem base_failure_rolls_back (presets : Preset → PresetCoords)
    (env : BaseEnv) (now : Nat) (preset0 : Preset) (mem0 : Option MemData)
    (hfail : (processBaseGesture presets env now preset0 mem0).failed = true) :
    (((processBaseGesture presets env now preset0 mem0).mem.bind
        MemData.baseStatus).all fun bs => !bs.isMoving) = true ∧
    ((processBaseGesture presets env now preset0 mem0).escaped = false →
      (processBaseGesture presets env now preset0 mem0).preset = preset0) ∧
    ((processBaseGesture presets env now preset0 mem0).escaped = true →
      env.write2Ok = false ∧
      (processBaseGesture presets env now preset0 mem0).preset = togglePreset preset0) := by
  rcases mem0 with _ | md
  · simp only [processBaseGesture, Option.isSome_none, Bool.false_and, Bool.false_eq_true,
      if_false] at hfail ⊢
    by_cases hm : env.moveOk
    · simp [hm] at hfail
    · simp only [Bool.not_eq_true] at hm
      simp [hm, baseCatch, togglePreset_togglePreset]
  · simp only [processBaseGesture, Option.isSome_some, Bool.true_and] at hfail ⊢
    by_cases hw1 : env.write1Ok
    · simp only [hw1, Bool.not_true, if_false] at hfail ⊢
      by_cases hm : env.moveOk
      · simp [hm] at hfail
      · simp only [Bool.not_eq_true] at hm
        by_cases hw2 : env.write2Ok
        · simp [hm, baseCatch, hw2, togglePreset_togglePreset]
        · simp only [Bool.not_eq_true] at hw2
          simp [hm, baseCatch, hw2, togglePreset_togglePreset]
    · simp only [Bool.not_eq_true] at hw1
      by_cases hw2 : env.write2Ok
      · simp [hw1, baseCatch, hw2, togglePreset_togglePreset]
      · simp only [Bool.not_eq_true] at hw2
        simp [hw1, baseCatch, hw2, togglePreset_togglePreset]

/-- Witness for the amended C5: failing optimistic write, succeeding recovery
write, on a concrete state. -/
theorem base_failure_rolls_back_witness :
    (((processBaseGesture presetsC1 envC5w 0 Preset.relax memC5).mem.bind
        MemData.baseStatus).all fun bs => !bs.isMoving) = true ∧
    (processBaseGesture presetsC1 envC5w 0 Preset.relax memC5).preset = Preset.relax := by
  have h := base_failure_rolls_back presetsC1 envC5w 0 Preset.relax memC5 (by decide)
  exact ⟨h.1, h.2.1 (by decide)⟩

/-- C6: from any starting preset mode and memory store, two consecutive base
gesture dispatches with no failure return `currentBasePreset` to its original
value and issue exactly one go-to-flat command and exactly one set-position
command across the pair. -/
theorem base_gesture_pair_idempotent (presets : Preset → PresetCoords)
    (t1 t2 : Nat) (preset0 : Preset) (mem0 : Option MemData) :
    (processBaseGesture presets okEnv t2
        (processBaseGesture presets okEnv t1 preset0 mem0).preset
        (processBaseGesture presets okEnv t1 preset0 mem0).mem).preset = preset0 ∧
    ((processBaseGesture presets okEnv t1 preset0 mem0).cmds ++
        (processBaseGesture presets okEnv t2
          (processBaseGesture presets okEnv t1 preset0 mem0).preset
          (processBaseGesture presets okEnv t1 preset0 mem0).mem).cmds).countP
        BaseCmd.isGoToFlat = 1 ∧
    ((processBaseGesture presets okEnv t1 preset0 mem0).cmds ++
        (processBaseGesture presets okEnv t2
          (processBaseGesture presets okEnv t1 preset0 mem0).preset
          (processBaseGesture presets okEnv t1 preset0 mem0).mem).cmds).countP
        BaseCmd.isSetPosition = 1 := by
  cases preset0 <;>
    simp [processBaseGesture, okEnv, togglePreset, BaseCmd.isGoToFlat,
      BaseCmd.isSetPosition, List.countP_cons, List.countP_nil]

theorem Effects.app_tempUpdates (a b : Effects) :
    (a.app b).tempUpdates = a.tempUpdates ++ b.tempUpdates := rfl

theorem Effects.app_devCmds (a b : Effects) :
    (a.app b).devCmds = a.devCmds ++ b.devCmds := rfl

theorem Effects.app_dispatched (a b : Effects) :
    (a.app b).dispatched = a.dispatched ++ b.dispatched := rfl

theorem Effects.addDispatched_tempUpdates (e : Effects) (side : Side2) (g : Gesture) :
    (e.addDispatched side g).tempUpdates = e.tempUpdates := rfl

theorem Effects.addDispatched_devCmds (e : Effects) (side : Side2) (g : Gesture) :
    (e.addDispatched side g).devCmds = e.devCmds := rfl

theorem Effects.addDispatched_dispatched (e : Effects) (side : Side2) (g : Gesture) :
    (e.addDispatched side g).dispatched = e.dispatched ++ [(side, g)] := rfl

/-- `processGesture` never replaces the stored snapshot. -/
theorem processGesture_deviceStatus (cfg : GCfg) (s : GState) (side : Side2)
    (g : Gesture) :
    (processGesture cfg s side g).1.deviceStatus = s.deviceStatus := by
  rcases h : cfg.settings.taps side g with ⟨d, a⟩ | _ | _
  · simp [processGesture, h]
  · simp only [processGesture, h]
    split <;> rfl
  · simp [processGesture, h]

/-- `processGesture` records no dispatch marker of its own. -/
theorem processGesture_dispatched (cfg : GCfg) (s : GState) (side : Side2)
    (g : Gesture) :
    (processGesture cfg s side g).2.dispatched = [] := by
  rcases h : cfg.settings.taps side g with ⟨d, a⟩ | _ | _
  · simp [processGesture, h, emptyEffects]
  · simp only [processGesture, h]
    split <;> rfl
  · simp [processGesture, h, emptyEffects]

/-- The temperature branch of `processGesture`: one update request for the
gesturing side, derived from the stored snapshot's target temperature. -/
theorem processGesture_temperature (cfg : GCfg) (s : GState) (side : Side2)
    (g : Gesture) (d : Direction) (a : Int)
    (h : cfg.settings.taps side g = Behavior.temperature d a) :
    processGesture cfg s side g =
      (s, { emptyEffects with tempUpdates :=
        [⟨side, (s.deviceStatus.side side).targetTemperatureF +
            (if d = Direction.increment then a else -1 * a)⟩] }) := by
  cases d <;> simp [processGesture, h]

/-- The alarm branch of `processGesture`: a snooze is triggered only when the
stored snapshot reports a vibrating alarm on either side. -/
theorem processGesture_alarm (cfg : GCfg) (s : GState) (side : Side2)
    (g : Gesture) (h : cfg.settings.taps side g = Behavior.alarm) :
    processGesture cfg s side g =
      (s, if s.deviceStatus.left.isAlarmVibrating || s.deviceStatus.right.isAlarmVibrating
          then { emptyEffects with devCmds := snoozeAlarm cfg.alarmBlob cfg.now side 10 }
          else emptyEffects) := by
  by_cases hv :
      (s.deviceStatus.left.isAlarmVibrating || s.deviceStatus.right.isAlarmVibrating) = true <;>
    simp [processGesture, h, hv]

theorem gestureStep_deviceStatus (cfg : GCfg) (next : DeviceStatus) (side : Side2)
    (acc : GState × Effects) (g : Gesture) :
    (gestureStep cfg next side acc g).1.deviceStatus = acc.1.deviceStatus := by
  unfold gestureStep
  split
  · exact processGesture_deviceStatus cfg acc.1 side g
  · rfl

theorem foldl_gestureStep_deviceStatus (cfg : GCfg) (next : DeviceStatus)
    (side : Side2) (gl : List Gesture) (acc : GState × Effects) :
    (gl.foldl (gestureStep cfg next side) acc).1.deviceStatus = acc.1.deviceStatus := by
  induction gl generalizing acc with
  | nil => rfl
  | cons g gl ih => rw [List.foldl_cons, ih, gestureStep_deviceStatus]

/-- The diff loop dispatches exactly the gestures whose tap entry changed,
in list order, each tagged with the side. -/
theorem foldl_gestureStep_dispatched (cfg : GCfg) (next : DeviceStatus)
    (side : Side2) (gl : List Gesture) (acc : GState × Effects) :
    (gl.foldl (gestureStep cfg next side) acc).2.dispatched =
      acc.2.dispatched ++
        (gl.filter fun g =>
            decide (tapsOf next side g ≠ tapsOf acc.1.deviceStatus side g)).map
          (fun g => (side, g)) := by
  induction gl generalizing acc with
  | nil => simp
  | cons g gl ih =>
    rw [List.foldl_cons, ih, gestureStep_deviceStatus]
    by_cases h : tapsOf next side g ≠ tapsOf acc.1.deviceStatus side g
    · simp [gestureStep, if_pos h, h, List.filter_cons, Effects.app_dispatched,
        Effects.addDispatched_dispatched, processGesture_dispatched]
    · push_neg at h
      simp [gestureStep, h, List.filter_cons]

theorem processGesturesForSide_dispatched (cfg : GCfg) (s : GState)
    (next : DeviceStatus) (side : Side2) :
    (processGesturesForSide cfg s next side).2.dispatched =
      (gestureList.filter fun g =>
          decide (tapsOf next side g ≠ tapsOf s.deviceStatus side g)).map
        (fun g => (side, g)) := by
  simpa [emptyEffects] using
    foldl_gestureStep_dispatched cfg next side gestureList (s, emptyEffects)

/-- If no tap entry changed for a side, the diff loop dispatches nothing and
leaves the state untouched. -/
theorem processGesturesForSide_nodiff (cfg : GCfg) (s : GState)
    (next : DeviceStatus) (side : Side2)
    (h : ∀ g, tapsOf next side g = tapsOf s.deviceStatus side g) :
    processGesturesForSide cfg s next side = (s, emptyEffects) := by
  simp [processGesturesForSide, gestureList, List.foldl, gestureStep, h]

/-- If exactly one gesture's tap entry changed for a side, the diff loop
dispatches exactly that gesture. -/
theorem processGesturesForSide_single (cfg : GCfg) (s : GState)
    (next : DeviceStatus) (side : Side2) (g : Gesture)
    (hg : tapsOf next side g ≠ tapsOf s.deviceStatus side g)
    (hothers : ∀ g2, g2 ≠ g → tapsOf next side g2 = tapsOf s.deviceStatus side g2) :
    processGesturesForSide cfg s next side =
      ((processGesture cfg s side g).1,
       ((emptyEffects.app (processGesture cfg s side g).2).addDispatched side g)) := by
  have hds := processGesture_deviceStatus cfg s side g
  cases g
  · have h2 := hothers .tripleTap (by decide)
    have h3 := hothers .quadTap (by decide)
    simp [processGesturesForSide, gestureList, List.foldl, gestureStep, hg, h2, h3, hds]
  · have h1 := hothers .doubleTap (by decide)
    have h3 := hothers .quadTap (by decide)
    simp [processGesturesForSide, gestureList, List.foldl, gestureStep, hg, h1, h3, hds]
  · have h1 := hothers .doubleTap (by decide)
    have h2 := hothers .tripleTap (by decide)
    simp [processGesturesForSide, gestureList, List.foldl, gestureStep, hg, h1, h2, hds]

/-- C7: a temperature gesture requests the device-reported current target for
the gesturing side plus the configured amount on increment and minus it on
decrement, as the sole update (one request carrying only that side's target
temperature), with no device or actuator command. -/
theorem temperature_gesture_adjusts_target (cfg : GCfg) (s : GState)
    (side : Side2) (g : Gesture) (d : Direction) (a : Int)
    (h : cfg.settings.taps side g = Behavior.temperature d a) :
    (processGesture cfg s side g).2.tempUpdates =
      [⟨side, if d = Direction.increment
          then (s.deviceStatus.side side).targetTemperatureF + a
          else (s.deviceStatus.side side).targetTemperatureF - a⟩] ∧
    (processGesture cfg s side g).2.devCmds = [] ∧
    (processGesture cfg s side g).2.baseCmds = [] := by
  cases d <;> simp [processGesture, h, sub_eq_add_neg, neg_one_mul, emptyEffects]

/-- Witness for C7: target 70 with a configured increment of 2 requests 72. -/
theorem temperature_gesture_adjusts_target_witness :
    (processGesture cfgInc2 sPrev Side2.left Gesture.doubleTap).2.tempUpdates =
      [⟨Side2.left, 72⟩] ∧
    (processGesture cfgInc2 sPrev Side2.left Gesture.doubleTap).2.devCmds = [] ∧
    (processGesture cfgInc2 sPrev Side2.left Gesture.doubleTap).2.baseCmds = [] := by
  have h := temperature_gesture_adjusts_target cfgInc2 sPrev Side2.left
    Gesture.doubleTap Direction.increment 2 rfl
  exact ⟨h.1.trans (by decide), h.2.1, h.2.2⟩

/-- C8: the poll wait time of a loop iteration is 60000 when the stored
snapshot reports the gesture-unsupported hardware version (Pod 3) and 2000
for any other reported version; the statement holds for every state, so the
cadence is re-derived from the current snapshot on each iteration. -/
theorem cadence_from_current_snapshot (cfg : GCfg) (s : GState)
    (next : DeviceStatus) :
    (frankenIter cfg s next).waitTime =
      if s.deviceStatus.coverVersion = Version.pod3 then 60000 else 2000 := by
  by_cases h : s.deviceStatus.coverVersion = Version.pod3 <;>
    simp [frankenIter, h]

/-- C9: for each side and gesture kind, the diff loop dispatches that gesture
exactly once when the two snapshots' tap entries for it differ and zero times
when they agree, and it dispatches nothing for the side when no entry differs. -/
theorem gesture_diff_reports_changed_taps (cfg : GCfg) (s : GState)
    (next : DeviceStatus) (side : Side2) (g : Gesture) :
    ((processGesturesForSide cfg s next side).2.dispatched.count (side, g) =
      if tapsOf next side g = tapsOf s.deviceStatus side g then 0 else 1) ∧
    ((∀ g2, tapsOf next side g2 = tapsOf s.deviceStatus side g2) →
      (processGesturesForSide cfg s next side).2.dispatched = []) := by
  constructor
  · rw [processGesturesForSide_dispatched]
    cases g <;>
      (by_cases h1 : tapsOf next side .doubleTap = tapsOf s.deviceStatus side .doubleTap <;>
       by_cases h2 : tapsOf next side .tripleTap = tapsOf s.deviceStatus side .tripleTap <;>
       by_cases h3 : tapsOf next side .quadTap = tapsOf s.deviceStatus side .quadTap <;>
        simp [gestureList, h1, h2, h3, List.count_cons, List.count_nil])
  · intro hall
    rw [processGesturesForSide_dispatched]
    simp [hall]

/-- Witness for C9 on concrete snapshots whose tap entries all agree. -/
theorem gesture_diff_reports_changed_taps_witness :
    (processGesturesForSide cfgInc2 sPrev dsPrev Side2.left).2.dispatched = [] :=
  (gesture_diff_reports_changed_taps cfgInc2 sPrev dsPrev Side2.left
    Gesture.doubleTap).2 (fun _ => rfl)

/-- C10: when a new snapshot triggers a dispatch, the temperature read and
the alarm-vibrating check are evaluated against the previously stored
snapshot, for every next snapshot (in particular one whose values changed);
the stored snapshot is replaced by the new one only afterwards. -/
theorem dispatch_reads_previous_snapshot (cfg : GCfg) (s : GState)
    (next : DeviceStatus) (side : Side2) (g : Gesture)
    (hv : s.deviceStatus.coverVersion ≠ Version.pod3)
    (hg : tapsOf next side g ≠ tapsOf s.deviceStatus side g)
    (honly : ∀ side2 g2, (side2, g2) ≠ (side, g) →
        tapsOf next side2 g2 = tapsOf s.deviceStatus side2 g2) :
    (∀ d a, cfg.settings.taps side g = Behavior.temperature d a →
        (frankenIter cfg s next).effects.tempUpdates =
          [⟨side, (s.deviceStatus.side side).targetTemperatureF +
              (if d = Direction.increment then a else -1 * a)⟩]) ∧
    (cfg.settings.taps side g = Behavior.alarm →
        (frankenIter cfg s next).effects.devCmds =
          (if s.deviceStatus.left.isAlarmVibrating || s.deviceStatus.right.isAlarmVibrating
            then snoozeAlarm cfg.alarmBlob cfg.now side 10 else [])) ∧
    (frankenIter cfg s next).state.deviceStatus = next := by
  have hb : (s.deviceStatus.coverVersion != Version.pod3) = true := by
    simpa using hv
  have hds := processGesture_deviceStatus cfg s side g
  cases side with
  | left =>
    have h1 := processGesturesForSide_single cfg s next .left g hg
      (fun g2 hg2 => honly .left g2 (by simp [hg2]))
    have h2 : processGesturesForSide cfg
        (processGesture cfg s Side2.left g).1 next .right =
        ((processGesture cfg s Side2.left g).1, emptyEffects) := by
      apply processGesturesForSide_nodiff
      intro g2
      rw [hds]
      exact honly .right g2 (by simp)
    have hEff : (frankenIter cfg s next).effects =
        ((emptyEffects.app (processGesture cfg s Side2.left g).2).addDispatched
          Side2.left g).app emptyEffects := by
      simp [frankenIter, processGestures, hb, h1, h2]
    refine ⟨?_, ?_, by simp [frankenIter]⟩
    · intro d a h
      rw [hEff, processGesture_temperature cfg s Side2.left g d a h]
      simp [Effects.app, Effects.addDispatched, emptyEffects]
    · intro h
      rw [hEff, processGesture_alarm cfg s Side2.left g h]
      by_cases hvb :
          (s.deviceStatus.left.isAlarmVibrating || s.deviceStatus.right.isAlarmVibrating) = true <;>
        simp [hvb, Effects.app, Effects.addDispatched, emptyEffects]
  | right =>
    have h1 : processGesturesForSide cfg s next .left = (s, emptyEffects) := by
      apply processGesturesForSide_nodiff
      intro g2
      exact honly .left g2 (by simp)
    have h2 := processGesturesForSide_single cfg s next .right g hg
      (fun g2 hg2 => honly .right g2 (by simp [hg2]))
    have hEff : (frankenIter cfg s next).effects =
        emptyEffects.app
          ((emptyEffects.app (processGesture cfg s Side2.right g).2).addDispatched
            Side2.right g) := by
      simp [frankenIter, processGestures, hb, h1, h2]
    refine ⟨?_, ?_, by simp [frankenIter]⟩
    · intro d a h
      rw [hEff, processGesture_temperature cfg s Side2.right g d a h]
      simp [Effects.app, Effects.addDispatched, emptyEffects]
    · intro h
      rw [hEff, processGesture_alarm cfg s Side2.right g h]
      by_cases hvb :
          (s.deviceStatus.left.isAlarmVibrating || s.deviceStatus.right.isAlarmVibrating) = true <;>
        simp [hvb, Effects.app, Effects.addDispatched, emptyEffects]

/-- Witness for C10: the stored snapshot has target 70, the triggering
snapshot already reports 99, yet the requested update is 72 (70 + 2). -/
theorem dispatch_reads_previous_snapshot_witness :
    (frankenIter cfgInc2 sPrev dsNext).effects.tempUpdates = [⟨Side2.left, 72⟩] := by
  have h := (dispatch_reads_previous_snapshot cfgInc2 sPrev dsNext Side2.left
    Gesture.doubleTap (by decide) (by decide) (by decide)).1 Direction.increment 2 rfl
  exact h.trans (by decide)
